import Mathlib

/-!
# ESP32-Paxcounter, `src/rtctime.cpp`: time pulse selection and RTC chip access

A shallow embedding of `rtctime.cpp`.  Preprocessor symbols become fields of a
`Build` record, the outcome of blocking calls (mutex lock, semaphore take,
`millis()`) is supplied by the caller of each embedded function, and every
side effect is appended to an event trace so that the order of bus and
hardware operations can be inspected.
-/

namespace Paxcounter

/-! ## Build configuration -/

/-- Preprocessor symbols tested by `rtctime.cpp`: each one is undefined
(`none`) or defined with a value (`some v`). -/
structure Build where
  GPS_INT : Option Nat
  GPS_CLK : Option Nat
  RTC_INT : Option Nat
  RTC_CLK : Option Nat
deriving DecidableEq, Repr

/-- The three pulse sources the module can work with. -/
inductive PulseSource
  | gps
  | rtc
  | timer
deriving DecidableEq, Repr

/-! ## Hardware and driver vocabulary -/

inductive PinMode
  | INPUT_PULLDOWN
  | INPUT_PULLUP
deriving DecidableEq, Repr

inductive Edge
  | RISING
  | FALLING
deriving DecidableEq, Repr

inductive SquareWaveClock
  | DS3231SquareWaveClock_1Hz
  | DS3231SquareWaveClock_1kHz
deriving DecidableEq, Repr

inductive SquareWavePin
  | DS3231SquareWavePin_ModeNone
  | DS3231SquareWavePin_ModeClock
deriving DecidableEq, Repr

/-- Modelled from the spec: the class `RtcDateTime` of the RTC driver library is
not part of `src/`.  The spec describes the chip's persisted time as "seconds
since the epoch (1970-01-01T00:00:00Z)", so a date-time value is that count. -/
structure RtcDateTime where
  epoch : Nat
deriving DecidableEq, Repr

/-- Modelled from the spec: the constructor `RtcDateTime(t)` used by
`set_rtctime` ("write the epoch value to the chip").  Its argument is a 32-bit
unsigned integer, so a wider `time_t` is reduced modulo `2^32`. -/
def RtcDateTime.ofTime (t : Nat) : RtcDateTime := ⟨t % 2 ^ 32⟩

/-- Modelled from the spec: `RtcDateTime::Epoch32Time()` ("convert and return
the 32-bit epoch value"). -/
def RtcDateTime.Epoch32Time (d : RtcDateTime) : Nat := d.epoch % 2 ^ 32

/-- Modelled from the spec: the comparison `now < compiled` of two date-time
values ("the stored time is older than the build time"). -/
def RtcDateTime.lt (a b : RtcDateTime) : Bool := decide (a.epoch < b.epoch)

/-- Transactions with the RTC chip issued through the driver object `Rtc`. -/
inductive ChipOp
  | Begin
  | IsDateTimeValid
  | SetDateTime (dt : RtcDateTime)
  | GetIsRunning
  | SetIsRunning (enable : Bool)
  | GetDateTime
  | Enable32kHzPin (enable : Bool)
  | SetSquareWavePin (m : SquareWavePin)
  | SetSquareWavePinClockFrequency (f : SquareWaveClock)
  | GetTemperature
deriving DecidableEq, Repr

/-- Observable events, in program order. -/
inductive Ev
  | lock (granted : Bool)
  | unlock
  | wireBegin
  | chip (op : ChipOp)
  | pinMode (pin : Nat) (m : PinMode)
  | timerBegin (num divider : Nat) (countUp : Bool)
  | timerAttachInterrupt (edge : Bool)
  | timerAlarmWrite (value : Nat) (autoreload : Bool)
  | attachInterrupt (pin : Nat) (e : Edge)
  | timerAlarmEnable
  | semTake (timeoutMs : Nat) (ok : Bool)
  | millis (v : Nat)
deriving DecidableEq, Repr

/-- Modelled from the spec: the registers of the DS3231 chip seen through the
driver library (which is not part of `src/`): "a validity flag and a running
flag maintained by the chip itself", the persisted time, the two auxiliary
outputs and the temperature sensor (in hundredths of a degree Celsius). -/
structure Chip where
  valid : Bool
  running : Bool
  time : RtcDateTime
  pin32k : Bool
  sqwPin : SquareWavePin
  sqwClock : SquareWaveClock
  centiDegC : Int
deriving DecidableEq, Repr

/-- Chip state together with the trace of events issued so far. -/
structure St where
  chip : Chip
  trace : List Ev
deriving DecidableEq, Repr

def St.emit (s : St) (e : Ev) : St := { s with trace := s.trace ++ [e] }

/-! ### Driver calls (modelled from the spec) -/

/-- Modelled from the spec: `Rtc.Begin()` of the driver library, which only
brings up the bus interface. -/
def Rtc.Begin (s : St) : St := s.emit (.chip .Begin)

/-- Modelled from the spec: `Rtc.IsDateTimeValid()` reads the validity flag. -/
def Rtc.IsDateTimeValid (s : St) : Bool × St :=
  (s.chip.valid, s.emit (.chip .IsDateTimeValid))

/-- Modelled from the spec: `Rtc.SetDateTime(dt)` stores the time; a freshly
written time is a valid one ("if the chip reports no valid stored time, seed it
with the build time"). -/
def Rtc.SetDateTime (dt : RtcDateTime) (s : St) : St :=
  { chip := { s.chip with time := dt, valid := true },
    trace := s.trace ++ [.chip (.SetDateTime dt)] }

/-- Modelled from the spec: `Rtc.GetIsRunning()` reads the running flag. -/
def Rtc.GetIsRunning (s : St) : Bool × St :=
  (s.chip.running, s.emit (.chip .GetIsRunning))

/-- Modelled from the spec: `Rtc.SetIsRunning(enable)` ("if the chip reports it is
not running, start it"). -/
def Rtc.SetIsRunning (enable : Bool) (s : St) : St :=
  { chip := { s.chip with running := enable },
    trace := s.trace ++ [.chip (.SetIsRunning enable)] }

/-- Modelled from the spec: `Rtc.GetDateTime()` reads the persisted time. -/
def Rtc.GetDateTime (s : St) : RtcDateTime × St :=
  (s.chip.time, s.emit (.chip .GetDateTime))

/-- Modelled from the spec: `Rtc.Enable32kHzPin(enable)`. -/
def Rtc.Enable32kHzPin (enable : Bool) (s : St) : St :=
  { chip := { s.chip with pin32k := enable },
    trace := s.trace ++ [.chip (.Enable32kHzPin enable)] }

/-- Modelled from the spec: `Rtc.SetSquareWavePin(m)`. -/
def Rtc.SetSquareWavePin (m : SquareWavePin) (s : St) : St :=
  { chip := { s.chip with sqwPin := m },
    trace := s.trace ++ [.chip (.SetSquareWavePin m)] }

/-- Modelled from the spec: `Rtc.SetSquareWavePinClockFrequency(f)`. -/
def Rtc.SetSquareWavePinClockFrequency (f : SquareWaveClock) (s : St) : St :=
  { chip := { s.chip with sqwClock := f },
    trace := s.trace ++ [.chip (.SetSquareWavePinClockFrequency f)] }

/-- Modelled from the spec: `Rtc.GetTemperature()` followed by
`AsFloatDegC()`; the floating-point result is represented by its value in
hundredths of a degree, so `0.0` is `0`. -/
def Rtc.GetTemperature (s : St) : Int × St :=
  (s.chip.centiDegC, s.emit (.chip .GetTemperature))

/-- The macro `I2C_MUTEX_LOCK()`: it is defined outside `src/`; whether the mutex
is granted is decided by the scheduler and passed in as `granted`. -/
def I2C_MUTEX_LOCK (granted : Bool) (s : St) : Bool × St :=
  (granted, s.emit (.lock granted))

/-- The macro `I2C_MUTEX_UNLOCK()`. -/
def I2C_MUTEX_UNLOCK (s : St) : St := s.emit .unlock

/-! ## `timepulse_init` (lines 13-74) -/

/-- Function `timepulse_init(pulse_period_ms)`.  The three preprocessor branches are
selected by the build; `p` is the 32-bit argument, `granted` the outcome of the
only lock attempt.  Returns the C return value and the new state. -/
def timepulse_init (b : Build) (granted : Bool) (p : Nat) (s : St) : Nat × St :=
  match b.GPS_INT, b.GPS_CLK with
  | some gpsInt, some gpsClk =>
    -- #if defined GPS_INT && defined GPS_CLK
    let s1 := s.emit (.pinMode gpsInt .INPUT_PULLDOWN)
    if gpsClk = 1000 then (1, s1) else (0, s1)
  | _, _ =>
    match b.RTC_INT, b.RTC_CLK with
    | some rtcInt, some rtcClk =>
      -- #elif defined RTC_INT && defined RTC_CLK
      let s1 := s.emit (.pinMode rtcInt .INPUT_PULLUP)
      let (ok, s2) := I2C_MUTEX_LOCK granted s1
      if ok then
        if rtcClk = 1000 then
          let s3 := Rtc.SetSquareWavePinClockFrequency .DS3231SquareWaveClock_1Hz s2
          let s4 := Rtc.SetSquareWavePin .DS3231SquareWavePin_ModeClock s3
          (1, I2C_MUTEX_UNLOCK s4)
        else if rtcClk = 1 then
          let s3 := Rtc.SetSquareWavePinClockFrequency .DS3231SquareWaveClock_1kHz s2
          let s4 := Rtc.SetSquareWavePin .DS3231SquareWavePin_ModeClock s3
          (1, I2C_MUTEX_UNLOCK s4)
        else
          (0, I2C_MUTEX_UNLOCK s2)
      else
        (0, s2)
    | _, _ =>
      -- #else: ESP32 hardware timer
      if p ≠ 0 then
        let s1 := s.emit (.timerBegin 1 8000 true)
        let s2 := s1.emit (.timerAttachInterrupt true)
        -- 10 * pulse_period_ms is a 32-bit unsigned product
        (1, s2.emit (.timerAlarmWrite ((10 * p) % 2 ^ 32) true))
      else
        (0, s)

/-- The source configured by `timepulse_init`, read off its preprocessor
conditions (lines 16, 31, 57). -/
def timepulse_init_source (b : Build) : PulseSource :=
  if b.GPS_INT.isSome && b.GPS_CLK.isSome then .gps
  else if b.RTC_INT.isSome && b.RTC_CLK.isSome then .rtc
  else .timer

/-! ## `timepulse_start` (lines 76-84) -/

/-- Function `timepulse_start()`. -/
def timepulse_start (b : Build) (s : St) : St :=
  match b.GPS_INT with
  | some gpsInt => s.emit (.attachInterrupt gpsInt .RISING)
  | none =>
    match b.RTC_INT with
    | some rtcInt => s.emit (.attachInterrupt rtcInt .FALLING)
    | none => s.emit .timerAlarmEnable

/-- The source armed by `timepulse_start`, read off its preprocessor
conditions (lines 77, 79, 81). -/
def timepulse_start_source (b : Build) : PulseSource :=
  if b.GPS_INT.isSome then .gps
  else if b.RTC_INT.isSome then .rtc
  else .timer

/-! ## `sync_clock` (lines 87-102) -/

/-- The guard `#if defined(RTC_INT) || defined(GPS_INT)` of `sync_clock`. -/
def sync_clock_external (b : Build) : Bool := b.RTC_INT.isSome || b.GPS_INT.isSome

/-- The loop `while (millis() % 1000);`.  `millis i` is the value returned by
the `i`-th call of `millis()`; the result lists the values sampled, the last
one being the sample that ended the loop.  `none` when the loop is still
running after `fuel` samples. -/
def busy_wait (millis : Nat → Nat) : Nat → Nat → Option (List Nat)
  | 0, _ => none
  | fuel + 1, i =>
    if millis i % 1000 ≠ 0 then
      (busy_wait millis fuel (i + 1)).map (fun l => millis i :: l)
    else
      some [millis i]

/-- Function `sync_clock()`: `semOk` is the outcome of `xSemaphoreTake(TimePulse,
pdMS_TO_TICKS(1000))`.  Returns the events of the call, or `none` when the busy
loop has not ended after `fuel` samples. -/
def sync_clock (b : Build) (semOk : Bool) (millis : Nat → Nat) (fuel : Nat) :
    Option (List Ev) :=
  if sync_clock_external b then
    if semOk then
      some [.semTake 1000 true]
    else
      (busy_wait millis fuel 0).map (fun l => Ev.semTake 1000 false :: l.map Ev.millis)
  else
    (busy_wait millis fuel 0).map (fun l => l.map Ev.millis)

/-! ## `CLOCKIRQ` (lines 106-113) -/

/-- State touched by the interrupt routine: the number of notifications sent
to `ClockTask`, the number of `xSemaphoreGiveFromISR(TimePulse, _)` calls, the
flag `TimePulseTick` and the number of `portYIELD_FROM_ISR()` calls. -/
structure TickState where
  notifications : Nat
  semGives : Nat
  TimePulseTick : Bool
  yields : Nat
deriving DecidableEq, Repr

/-- The guard `#if defined(GPS_INT) || defined(RTC_INT)` of `CLOCKIRQ`. -/
def CLOCKIRQ_external (b : Build) : Bool := b.GPS_INT.isSome || b.RTC_INT.isSome

/-- The interrupt service routine `CLOCKIRQ()`. -/
def CLOCKIRQ (b : Build) (s : TickState) : TickState :=
  let s1 := { s with notifications := s.notifications + 1 }
  let s2 :=
    if CLOCKIRQ_external b then
      { s1 with semGives := s1.semGives + 1, TimePulseTick := !s1.TimePulseTick }
    else s1
  { s2 with yields := s2.yields + 1 }

/-- The routine run `k` times in a row. -/
def CLOCKIRQ_times (b : Build) : Nat → TickState → TickState
  | 0, s => s
  | k + 1, s => CLOCKIRQ_times b k (CLOCKIRQ b s)

/-! ## RTC chip access (lines 115-211, compiled when `HAS_RTC` is defined) -/

/-- Function `rtc_init()`; `compiled` is `RtcDateTime(__DATE__, __TIME__)`. -/
def rtc_init (compiled : RtcDateTime) (granted : Bool) (s : St) : Nat × St :=
  let (ok, s0) := I2C_MUTEX_LOCK granted s
  if ok then
    let s1 := Rtc.Begin (s0.emit .wireBegin)
    let (valid, s2) := Rtc.IsDateTimeValid s1
    let s3 := if !valid then Rtc.SetDateTime compiled s2 else s2
    let (running, s4) := Rtc.GetIsRunning s3
    let s5 := if !running then Rtc.SetIsRunning true s4 else s4
    let (now, s6) := Rtc.GetDateTime s5
    let s7 := if now.lt compiled then Rtc.SetDateTime compiled s6 else s6
    let s8 := Rtc.Enable32kHzPin false s7
    let s9 := Rtc.SetSquareWavePin .DS3231SquareWavePin_ModeNone s8
    (1, I2C_MUTEX_UNLOCK s9)
  else
    -- goto error
    (0, I2C_MUTEX_UNLOCK s0)

/-- Function `set_rtctime(time_t t)`; `none` when `sync_clock` has not returned within
`fuel` samples of the millisecond counter. -/
def set_rtctime (b : Build) (granted semOk : Bool) (millis : Nat → Nat) (fuel : Nat)
    (t : Nat) (s : St) : Option (Nat × St) :=
  let (ok, s0) := I2C_MUTEX_LOCK granted s
  if ok then
    match sync_clock b semOk millis fuel with
    | none => none
    | some evs =>
      let s1 : St := { s0 with trace := s0.trace ++ evs }
      let s2 := Rtc.SetDateTime (RtcDateTime.ofTime t) s1
      some (1, I2C_MUTEX_UNLOCK s2)
  else
    some (0, s0)

/-- Function `set_rtctime(uint32_t t)`, the overload that forwards to the `time_t` one. -/
def set_rtctime_u32 (b : Build) (granted semOk : Bool) (millis : Nat → Nat) (fuel : Nat)
    (t : Nat) (s : St) : Option (Nat × St) :=
  set_rtctime b granted semOk millis fuel (t % 2 ^ 32) s

/-- Function `get_rtctime()`. -/
def get_rtctime (granted : Bool) (s : St) : Nat × St :=
  let t := 0
  let (ok, s0) := I2C_MUTEX_LOCK granted s
  if ok then
    let (valid, s1) := Rtc.IsDateTimeValid s0
    if valid then
      let (tt, s2) := Rtc.GetDateTime s1
      (tt.Epoch32Time, I2C_MUTEX_UNLOCK s2)
    else
      (t, I2C_MUTEX_UNLOCK s1)
  else
    (t, s0)

/-- Function `get_rtctemp()`, with the result in hundredths of a degree Celsius. -/
def get_rtctemp (granted : Bool) (s : St) : Int × St :=
  let (ok, s0) := I2C_MUTEX_LOCK granted s
  if ok then
    let (temp, s1) := Rtc.GetTemperature s0
    (temp, I2C_MUTEX_UNLOCK s1)
  else
    (0, s0)

/-! ## Bus lease discipline -/

/-- One step of the lease automaton: `held` tells whether the bus mutex is
held.  `none` is a violation: a lock while the mutex is held, an unlock while
it is not, or a chip transaction outside a lease. -/
def leaseStep (held : Bool) : Ev → Option Bool
  | .lock true => if held then none else some true
  | .lock false => some held
  | .unlock => if held then some false else none
  | .chip _ => if held then some true else none
  | _ => some held

/-- The lease automaton run over a trace, from the state `held`. -/
def leaseRun : Bool → List Ev → Option Bool
  | held, [] => some held
  | held, e :: es =>
    match leaseStep held e with
    | none => none
    | some h => leaseRun h es

/-- A trace obeys the lease discipline when the automaton accepts it and the
mutex is free at the end. -/
def wellFormed (tr : List Ev) : Bool := leaseRun false tr == some false

/-- Whether an event belongs to the wait of `sync_clock`. -/
def Ev.isSync : Ev → Bool
  | .semTake _ _ => true
  | .millis _ => true
  | _ => false

/-- A chip state used as a starting point in examples. -/
def chip0 : Chip :=
  { valid := false, running := false, time := ⟨0⟩, pin32k := true,
    sqwPin := .DS3231SquareWavePin_ModeNone, sqwClock := .DS3231SquareWaveClock_1Hz,
    centiDegC := 2150 }

/-! ## Properties of `sync_clock` -/

theorem range_succ_map_shift (f : Nat → Nat) (i n : Nat) :
    (List.range (n + 1 + 1)).map (fun j => f (i + j)) =
      f i :: (List.range (n + 1)).map (fun j => f (i + 1 + j)) := by
  rw [List.range_succ_eq_map]
  simp only [List.map_cons, List.map_map, Nat.add_zero]
  congr 1
  apply List.map_congr_left
  intro a _
  simp only [Function.comp, Nat.succ_eq_add_one]
  congr 1
  omega

/-- The busy loop ends exactly at the first sample that is a multiple of 1000,
provided the fuel reaches it; the values returned are the samples taken. -/
theorem busy_wait_eq_some (millis : Nat → Nat) (fuel i : Nat) (l : List Nat) :
    busy_wait millis fuel i = some l ↔
      ∃ n, n < fuel ∧ millis (i + n) % 1000 = 0 ∧
        (∀ j, j < n → millis (i + j) % 1000 ≠ 0) ∧
        l = (List.range (n + 1)).map (fun j => millis (i + j)) := by
  induction fuel generalizing i l with
  | zero => simp [busy_wait]
  | succ f ih =>
    by_cases h : millis i % 1000 = 0
    · simp only [busy_wait, h, ne_eq, not_true_eq_false, if_false, Option.some.injEq]
      constructor
      · intro hl
        refine ⟨0, by omega, by simpa using h, ?_, ?_⟩
        · intro j hj
          omega
        · subst hl
          simp [List.range_succ]
      · rintro ⟨n, _, _, hall, hl⟩
        have hn : n = 0 := by
          by_contra hne
          exact hall 0 (by omega) (by simpa using h)
        subst hn
        subst hl
        simp [List.range_succ]
    · simp only [busy_wait, ne_eq, h, not_false_eq_true, if_true, Option.map_eq_some']
      constructor
      · rintro ⟨l1, hl1, rfl⟩
        obtain ⟨n, hn, hz, hall, hl⟩ := (ih (i + 1) l1).1 hl1
        refine ⟨n + 1, by omega, ?_, ?_, ?_⟩
        · have : i + (n + 1) = i + 1 + n := by omega
          rw [this]
          exact hz
        · intro j hj
          cases j with
          | zero => simpa using h
          | succ j =>
            have : i + (j + 1) = i + 1 + j := by omega
            rw [this]
            exact hall j (by omega)
        · rw [range_succ_map_shift, hl]
      · rintro ⟨n, hn, hz, hall, hl⟩
        cases n with
        | zero => exact absurd (by simpa using hz) h
        | succ n =>
          refine ⟨(List.range (n + 1)).map (fun j => millis (i + 1 + j)), ?_, ?_⟩
          · refine (ih (i + 1) _).2 ⟨n, by omega, ?_, ?_, rfl⟩
            · have : i + 1 + n = i + (n + 1) := by omega
              rw [this]
              exact hz
            · intro j hj
              have : i + 1 + j = i + (j + 1) := by omega
              rw [this]
              exact hall (j + 1) (by omega)
          · rw [hl, range_succ_map_shift]

/-- Any sample that is a multiple of 1000 within the fuel makes the loop end. -/
theorem busy_wait_isSome (millis : Nat → Nat) (fuel k : Nat) (hk : k < fuel)
    (hz : millis k % 1000 = 0) : ∃ l, busy_wait millis fuel 0 = some l := by
  classical
  have hex : ∃ n, millis n % 1000 = 0 := ⟨k, hz⟩
  refine ⟨_, (busy_wait_eq_some millis fuel 0 _).2 ⟨Nat.find hex, ?_, ?_, ?_, rfl⟩⟩
  · exact lt_of_le_of_lt (Nat.find_min' hex hz) hk
  · simpa using Nat.find_spec hex
  · intro j hj
    simpa using Nat.find_min hex hj

/-- C3: `sync_clock` returns in exactly two ways.  Either the build has an
external pulse, the semaphore wait (timeout 1000 ms) succeeded and the
millisecond counter was never sampled; or the call sampled the counter
`k + 1` times, the last sample being the first multiple of 1000, and this
second way is the only one in a build without external pulse and after a
timed out semaphore wait.  Conversely each of the two situations makes the
call return when the fuel covers the samples. -/
theorem sync_clock_returns_iff (b : Build) (semOk : Bool) (millis : Nat → Nat)
    (fuel : Nat) (tr : List Ev) :
    sync_clock b semOk millis fuel = some tr ↔
      (sync_clock_external b = true ∧ semOk = true ∧ tr = [Ev.semTake 1000 true]) ∨
      (∃ k, k < fuel ∧ millis k % 1000 = 0 ∧ (∀ j, j < k → millis j % 1000 ≠ 0) ∧
        (sync_clock_external b = true → semOk = false) ∧
        tr = (if sync_clock_external b then [Ev.semTake 1000 false] else []) ++
          (List.range (k + 1)).map (fun j => Ev.millis (millis j))) := by
  have key : ∀ l : List Nat, busy_wait millis fuel 0 = some l ↔
      ∃ n, n < fuel ∧ millis n % 1000 = 0 ∧ (∀ j, j < n → millis j % 1000 ≠ 0) ∧
        l = (List.range (n + 1)).map (fun j => millis j) := by
    intro l
    simpa using busy_wait_eq_some millis fuel 0 l
  unfold sync_clock
  cases hx : sync_clock_external b <;> cases semOk
  all_goals simp only [if_true, if_false, Bool.false_eq_true, Option.map_eq_some',
    false_and, and_false, false_or, true_and, and_true, List.nil_append,
    List.singleton_append, forall_const, false_implies, true_implies, Option.some.injEq]
  · constructor
    · rintro ⟨l, hl, rfl⟩
      obtain ⟨n, hn, hz, hall, rfl⟩ := (key l).1 hl
      exact ⟨n, hn, hz, hall, by simp [List.map_map, Function.comp]⟩
    · rintro ⟨n, hn, hz, hall, rfl⟩
      exact ⟨_, (key _).2 ⟨n, hn, hz, hall, rfl⟩, by simp [List.map_map, Function.comp]⟩
  · constructor
    · rintro ⟨l, hl, rfl⟩
      obtain ⟨n, hn, hz, hall, rfl⟩ := (key l).1 hl
      exact ⟨n, hn, hz, hall, by simp [List.map_map, Function.comp]⟩
    · rintro ⟨n, hn, hz, hall, rfl⟩
      exact ⟨_, (key _).2 ⟨n, hn, hz, hall, rfl⟩, by simp [List.map_map, Function.comp]⟩
  · constructor
    · rintro ⟨l, hl, rfl⟩
      obtain ⟨n, hn, hz, hall, rfl⟩ := (key l).1 hl
      exact ⟨n, hn, hz, hall, by simp [List.map_map, Function.comp]⟩
    · rintro ⟨n, hn, hz, hall, rfl⟩
      exact ⟨_, (key _).2 ⟨n, hn, hz, hall, rfl⟩, by simp [List.map_map, Function.comp]⟩
  · constructor
    · intro h
      exact Or.inl h.symm
    · rintro (h | ⟨n, _, _, _, h, _⟩)
      · exact h.symm
      · exact absurd h (by simp)

/-! ## Properties of `CLOCKIRQ` -/

theorem CLOCKIRQ_times_succ (b : Build) (k : Nat) (s : TickState) :
    CLOCKIRQ_times b (k + 1) s = CLOCKIRQ b (CLOCKIRQ_times b k s) := by
  induction k generalizing s with
  | zero => rfl
  | succ k ih =>
    show CLOCKIRQ_times b (k + 1) (CLOCKIRQ b s) = _
    rw [ih (CLOCKIRQ b s)]
    rfl

/-- C4: after `k` consecutive runs of `CLOCKIRQ` exactly `k` notifications
have been sent to `ClockTask`; in a build with an external pulse the semaphore
has been given `k` times and `TimePulseTick` has its initial value for even
`k` and the negated one for odd `k`; in a build without external pulse the
semaphore and the flag are untouched. -/
theorem CLOCKIRQ_times_counts (b : Build) (k : Nat) (s : TickState) :
    (CLOCKIRQ_times b k s).notifications = s.notifications + k ∧
    (if CLOCKIRQ_external b then
      (CLOCKIRQ_times b k s).semGives = s.semGives + k ∧
      (CLOCKIRQ_times b k s).TimePulseTick =
        (if k % 2 = 0 then s.TimePulseTick else !s.TimePulseTick)
    else
      (CLOCKIRQ_times b k s).semGives = s.semGives ∧
      (CLOCKIRQ_times b k s).TimePulseTick = s.TimePulseTick) := by
  induction k with
  | zero => cases hx : CLOCKIRQ_external b <;> simp [CLOCKIRQ_times]
  | succ k ih =>
    rw [CLOCKIRQ_times_succ]
    cases hx : CLOCKIRQ_external b
    · simp only [hx, Bool.false_eq_true, if_false] at ih
      obtain ⟨h1, h2, h3⟩ := ih
      simp only [CLOCKIRQ, hx, Bool.false_eq_true, if_false, h1, h2, h3]
      exact ⟨by omega, trivial, trivial⟩
    · simp only [hx, if_true] at ih
      obtain ⟨h1, h2, h3⟩ := ih
      simp only [CLOCKIRQ, hx, if_true, h1, h2, h3]
      refine ⟨by omega, by omega, ?_⟩
      rcases Nat.mod_two_eq_zero_or_one k with hk | hk
      · have : (k + 1) % 2 = 1 := by omega
        simp [hk, this]
      · have : (k + 1) % 2 = 0 := by omega
        simp [hk, this]

/-! ## Properties of `timepulse_init` -/

/-- C1, the claim refuted: in a satellite-pulse build with `GPS_CLK = 1000`
the call `timepulse_init(5)` succeeds although 5 is not the legal period
1000. -/
theorem timepulse_init_accepts_illegal_period :
    (timepulse_init ⟨some 34, some 1000, none, none⟩ true 5 ⟨chip0, []⟩).1 = 1 ∧
      (5 : Nat) ≠ 1000 := by
  decide

/-- C1, amended: in a satellite-pulse build (`GPS_INT` and `GPS_CLK` defined)
the result is 1 exactly when the build constant `GPS_CLK` is 1000, whatever
the argument; in a chip-pulse build (`RTC_INT` and `RTC_CLK` defined, the GPS
pair not) with the bus granted the result is 1 exactly when the build constant
`RTC_CLK` is 1000 or 1, whatever the argument; in an internal-timer build
(neither pair defined) the result is 1 exactly when the argument is not 0;
in every other case the result is 0. -/
theorem timepulse_init_result (b : Build) (p : Nat) (s : St) :
    (timepulse_init b true p s).1 =
      (match timepulse_init_source b with
        | .gps => if b.GPS_CLK = some 1000 then 1 else 0
        | .rtc => if b.RTC_CLK = some 1000 ∨ b.RTC_CLK = some 1 then 1 else 0
        | .timer => if p ≠ 0 then 1 else 0) := by
  obtain ⟨gi, gc, ri, rc⟩ := b
  cases gi <;> cases gc <;> cases ri <;> cases rc <;>
    simp only [timepulse_init, timepulse_init_source, I2C_MUTEX_LOCK, Option.isSome,
      Bool.and_true, Bool.and_false, Bool.false_and, Bool.true_and, if_true, if_false,
      Bool.false_eq_true, Option.some.injEq, ne_eq] <;>
    (try split_ifs) <;> simp_all

/-- Exactness of the alarm count for the periods whose tenfold fits 32 bits. -/
theorem timepulse_init_alarm_exact (p : Nat) (s : St) (hp : 0 < p) (hle : p ≤ 429496729) :
    timepulse_init ⟨none, none, none, none⟩ true p s =
      (1, ⟨s.chip, s.trace ++ [Ev.timerBegin 1 8000 true, Ev.timerAttachInterrupt true,
        Ev.timerAlarmWrite (10 * p) true]⟩) := by
  have h0 : p ≠ 0 := by omega
  have hm : (10 * p) % 4294967296 = 10 * p := Nat.mod_eq_of_lt (by omega)
  simp [timepulse_init, St.emit, h0, hm]

/-- C9, the code at the failing input: in an internal-timer build
`timepulse_init(429496730)` succeeds and programs the alarm of the 10 kHz timer
(80 MHz divided by 8000) with the count 4, the 32-bit wrap of the product
4294967300, so the alarm period is 0.4 ms and not 429496730 ms. -/
theorem timepulse_init_alarm_wraps :
    timepulse_init ⟨none, none, none, none⟩ true 429496730 ⟨chip0, []⟩ =
      (1, ⟨chip0, [Ev.timerBegin 1 8000 true, Ev.timerAttachInterrupt true,
        Ev.timerAlarmWrite 4 true]⟩) ∧
    10 * 429496730 ≠ 4 ∧ 429496730 < 2 ^ 32 := by
  decide

/-! ## Agreement of the preprocessor guards -/

/-- The guards of `sync_clock` and `CLOCKIRQ` always follow `timepulse_start`. -/
theorem external_follows_start (b : Build) :
    sync_clock_external b = CLOCKIRQ_external b ∧
    (CLOCKIRQ_external b = true ↔ timepulse_start_source b ≠ PulseSource.timer) := by
  obtain ⟨gi, gc, ri, rc⟩ := b
  cases gi <;> cases ri <;>
    simp [sync_clock_external, CLOCKIRQ_external, timepulse_start_source]

/-- The source configured and the source armed coincide exactly in the builds
that define `GPS_CLK` along with `GPS_INT`, or that leave `GPS_INT` undefined
and define `RTC_CLK` whenever they define `RTC_INT`. -/
theorem init_source_eq_start_source_iff (b : Build) :
    timepulse_init_source b = timepulse_start_source b ↔
      (b.GPS_INT.isSome = true ∧ b.GPS_CLK.isSome = true) ∨
      (b.GPS_INT.isSome = false ∧ (b.RTC_INT.isSome = true → b.RTC_CLK.isSome = true)) := by
  obtain ⟨gi, gc, ri, rc⟩ := b
  cases gi <;> cases gc <;> cases ri <;> cases rc <;>
    simp [timepulse_init_source, timepulse_start_source]

/-- C10, the code at the failing input: in the build that defines `GPS_INT`
(pin 34) and none of `GPS_CLK`, `RTC_INT`, `RTC_CLK`, the call
`timepulse_init(1000)` succeeds and configures the hardware timer, whereas
`timepulse_start` attaches the interrupt of the satellite pin and never
enables the timer alarm, and `sync_clock` and `CLOCKIRQ` treat the build as one
with an external pulse. -/
theorem init_and_start_disagree :
    timepulse_init ⟨some 34, none, none, none⟩ true 1000 ⟨chip0, []⟩ =
      (1, ⟨chip0, [Ev.timerBegin 1 8000 true, Ev.timerAttachInterrupt true,
        Ev.timerAlarmWrite 10000 true]⟩) ∧
    timepulse_start ⟨some 34, none, none, none⟩ ⟨chip0, []⟩ =
      ⟨chip0, [Ev.attachInterrupt 34 Edge.RISING]⟩ ∧
    timepulse_init_source ⟨some 34, none, none, none⟩ = PulseSource.timer ∧
    timepulse_start_source ⟨some 34, none, none, none⟩ = PulseSource.gps ∧
    sync_clock_external ⟨some 34, none, none, none⟩ = true ∧
    CLOCKIRQ_external ⟨some 34, none, none, none⟩ = true := by
  decide

/-! ## Properties of the RTC chip access -/

/-- The value returned by `get_rtctime` when the lease is granted. -/
theorem get_rtctime_granted (s : St) :
    (get_rtctime true s).1 = (if s.chip.valid then s.chip.time.Epoch32Time else 0) := by
  cases hv : s.chip.valid <;>
    simp [get_rtctime, I2C_MUTEX_LOCK, Rtc.IsDateTimeValid, Rtc.GetDateTime, St.emit, hv]

/-- C6: `get_rtctime` returns 0 when the lease is refused or the chip flags
its time invalid, and the 32-bit epoch value of the stored time when the lease
is granted and the time is valid; it never changes the chip, and the only
events it issues are the lock attempt, reads of the chip and the unlock (no
sample of the millisecond counter, no semaphore wait). -/
theorem get_rtctime_spec (granted : Bool) (s : St) :
    (get_rtctime granted s).1 =
      (if granted && s.chip.valid then s.chip.time.Epoch32Time else 0) ∧
    (get_rtctime granted s).2.chip = s.chip ∧
    (get_rtctime granted s).2.trace = s.trace ++
      (if granted then
        (if s.chip.valid then
          [Ev.lock true, Ev.chip ChipOp.IsDateTimeValid, Ev.chip ChipOp.GetDateTime, Ev.unlock]
        else [Ev.lock true, Ev.chip ChipOp.IsDateTimeValid, Ev.unlock])
      else [Ev.lock false]) := by
  cases granted <;> cases hv : s.chip.valid <;>
    simp [get_rtctime, I2C_MUTEX_LOCK, I2C_MUTEX_UNLOCK, Rtc.IsDateTimeValid,
      Rtc.GetDateTime, St.emit, hv]

/-- C7: with the bus mutex refused, `rtc_init`, `set_rtctime`, `get_rtctime`,
`get_rtctemp` and the chip-pulse `timepulse_init` all return 0, leave the chip
as it was and issue no chip transaction, semaphore wait or counter sample
(`set_rtctime` returns even with no fuel for the wait); and `set_rtctime`
returns 0 only when the mutex was refused. -/
theorem bus_busy_fails_closed (b : Build) (compiled : RtcDateTime) (granted semOk : Bool)
    (millis : Nat → Nat) (fuel t p : Nat) (s : St)
    (hb : timepulse_init_source b = PulseSource.rtc) :
    rtc_init compiled false s = (0, ⟨s.chip, s.trace ++ [Ev.lock false, Ev.unlock]⟩) ∧
    set_rtctime b false semOk millis fuel t s = some (0, ⟨s.chip, s.trace ++ [Ev.lock false]⟩) ∧
    set_rtctime b false semOk millis 0 t s = some (0, ⟨s.chip, s.trace ++ [Ev.lock false]⟩) ∧
    get_rtctime false s = (0, ⟨s.chip, s.trace ++ [Ev.lock false]⟩) ∧
    get_rtctemp false s = (0, ⟨s.chip, s.trace ++ [Ev.lock false]⟩) ∧
    (∃ pin, timepulse_init b false p s =
      (0, ⟨s.chip, s.trace ++ [Ev.pinMode pin PinMode.INPUT_PULLUP, Ev.lock false]⟩)) ∧
    ((set_rtctime b granted semOk millis fuel t s).map Prod.fst = some 0 ↔ granted = false) := by
  refine ⟨?_, ?_, ?_, ?_, ?_, ?_, ?_⟩
  · simp [rtc_init, I2C_MUTEX_LOCK, I2C_MUTEX_UNLOCK, St.emit]
  · simp [set_rtctime, I2C_MUTEX_LOCK, St.emit]
  · simp [set_rtctime, I2C_MUTEX_LOCK, St.emit]
  · simp [get_rtctime, I2C_MUTEX_LOCK, St.emit]
  · simp [get_rtctemp, I2C_MUTEX_LOCK, St.emit]
  · obtain ⟨gi, gc, ri, rc⟩ := b
    cases gi <;> cases gc <;> cases ri <;> cases rc <;>
      simp [timepulse_init_source] at hb <;>
      simp [timepulse_init, I2C_MUTEX_LOCK, St.emit]
  · cases granted
    · simp [set_rtctime, I2C_MUTEX_LOCK, St.emit]
    · cases hs : sync_clock b semOk millis fuel <;>
        simp [set_rtctime, I2C_MUTEX_LOCK, hs]

/-- C7, an instance: the chip-pulse build with pin 35 and a 1000 ms clock. -/
theorem bus_busy_fails_closed_witness :
    timepulse_init_source ⟨none, none, some 35, some 1000⟩ = PulseSource.rtc ∧
    rtc_init ⟨1700000000⟩ false ⟨chip0, []⟩ = (0, ⟨chip0, [Ev.lock false, Ev.unlock]⟩) ∧
    (∃ pin, timepulse_init ⟨none, none, some 35, some 1000⟩ false 1000 ⟨chip0, []⟩ =
      (0, ⟨chip0, [Ev.pinMode pin PinMode.INPUT_PULLUP, Ev.lock false]⟩)) :=
  ⟨by decide,
    (bus_busy_fails_closed ⟨none, none, some 35, some 1000⟩ ⟨1700000000⟩ true true
      (fun _ => 1) 0 1700000000 1000 ⟨chip0, []⟩ (by decide)).1,
    (bus_busy_fails_closed ⟨none, none, some 35, some 1000⟩ ⟨1700000000⟩ true true
      (fun _ => 1) 0 1700000000 1000 ⟨chip0, []⟩ (by decide)).2.2.2.2.2.1⟩

theorem RtcDateTime.lt_self (d : RtcDateTime) : d.lt d = false := by
  simp [RtcDateTime.lt]

/-- The chip after a granted `rtc_init`: the time is the build time when the
chip was invalid or older, the flags say valid-or-rewritten and running, and
both auxiliary outputs are off. -/
theorem rtc_init_chip (compiled : RtcDateTime) (s : St) :
    (rtc_init compiled true s).1 = 1 ∧
    (rtc_init compiled true s).2.chip =
      { valid := s.chip.valid || s.chip.time.lt compiled || !s.chip.valid,
        running := true,
        time := if !s.chip.valid || s.chip.time.lt compiled then compiled else s.chip.time,
        pin32k := false,
        sqwPin := SquareWavePin.DS3231SquareWavePin_ModeNone,
        sqwClock := s.chip.sqwClock,
        centiDegC := s.chip.centiDegC } := by
  obtain ⟨⟨v, r, tm, p32, sp, sc, tc⟩, tr⟩ := s
  cases v <;> cases r <;> cases hl : tm.lt compiled <;>
    simp [rtc_init, I2C_MUTEX_LOCK, I2C_MUTEX_UNLOCK, Rtc.Begin, Rtc.IsDateTimeValid,
      Rtc.SetDateTime, Rtc.GetIsRunning, Rtc.SetIsRunning, Rtc.GetDateTime,
      Rtc.Enable32kHzPin, Rtc.SetSquareWavePin, St.emit, hl, RtcDateTime.lt_self]

/-- C5: on a chip whose stored time is older than the build time (whatever
its flags), or that reports no valid time, a granted `rtc_init` returns 1 and a
granted `get_rtctime` right after it returns the build time in epoch seconds,
hence a value not below it. -/
theorem rtc_init_then_get_ge_build (compiled : RtcDateTime) (s : St)
    (hc : compiled.epoch < 2 ^ 32)
    (h : s.chip.time.lt compiled = true ∨ s.chip.valid = false) :
    (rtc_init compiled true s).1 = 1 ∧
    (get_rtctime true (rtc_init compiled true s).2).1 = compiled.epoch ∧
    compiled.epoch ≤ (get_rtctime true (rtc_init compiled true s).2).1 := by
  have hg := get_rtctime_granted (rtc_init compiled true s).2
  have hi := rtc_init_chip compiled s
  have hm : compiled.epoch < 4294967296 := by
    have h32 : (2 : Nat) ^ 32 = 4294967296 := by norm_num
    omega
  have hv : (get_rtctime true (rtc_init compiled true s).2).1 = compiled.epoch := by
    rw [hg, hi.2]
    rcases h with h | h
    · cases hval : s.chip.valid <;>
        simp [h, RtcDateTime.Epoch32Time, Nat.mod_eq_of_lt hm]
    · simp [h, RtcDateTime.Epoch32Time, Nat.mod_eq_of_lt hm]
  exact ⟨hi.1, hv, le_of_eq hv.symm⟩

/-- C5, an instance: a valid, stopped chip that holds a time of the year 2001
and a build of November 2023. -/
theorem rtc_init_then_get_ge_build_witness :
    (1700000000 : Nat) < 2 ^ 32 ∧
    (rtc_init ⟨1700000000⟩ true ⟨{ chip0 with valid := true, time := ⟨1000000000⟩ }, []⟩).1 = 1 ∧
    1700000000 ≤ (get_rtctime true
      (rtc_init ⟨1700000000⟩ true
        ⟨{ chip0 with valid := true, time := ⟨1000000000⟩ }, []⟩).2).1 :=
  ⟨by decide,
    (rtc_init_then_get_ge_build ⟨1700000000⟩
      ⟨{ chip0 with valid := true, time := ⟨1000000000⟩ }, []⟩ (by decide)
      (Or.inl (by decide))).1,
    (rtc_init_then_get_ge_build ⟨1700000000⟩
      ⟨{ chip0 with valid := true, time := ⟨1000000000⟩ }, []⟩ (by decide)
      (Or.inl (by decide))).2.2⟩

/-- C2: with the lease granted to both calls and a wait of `sync_clock` that
ends (a pulse on the semaphore in an external-pulse build, or a sample of the
millisecond counter that is a multiple of 1000 within the fuel),
`set_rtctime(t)` returns 1 for a 32-bit `t` and the `get_rtctime()` that
follows returns `t` itself, so the two differ by at most one second. -/
theorem set_then_get_roundtrip (b : Build) (semOk : Bool) (millis : Nat → Nat)
    (fuel t : Nat) (s : St) (ht : t < 2 ^ 32)
    (hsync : (sync_clock_external b = true ∧ semOk = true) ∨
      ∃ k, k < fuel ∧ millis k % 1000 = 0) :
    ∃ s1, set_rtctime b true semOk millis fuel t s = some (1, s1) ∧
      (get_rtctime true s1).1 = t ∧
      Int.natAbs (((get_rtctime true s1).1 : Int) - (t : Int)) ≤ 1 := by
  have hm : t < 4294967296 := by
    have h32 : (2 : Nat) ^ 32 = 4294967296 := by norm_num
    omega
  have hret : ∃ evs, sync_clock b semOk millis fuel = some evs := by
    rcases hsync with ⟨hx, hs⟩ | ⟨k, hk, hz⟩
    · exact ⟨[Ev.semTake 1000 true], by simp [sync_clock, hx, hs]⟩
    · obtain ⟨l, hl⟩ := busy_wait_isSome millis fuel k hk hz
      unfold sync_clock
      cases sync_clock_external b <;> cases semOk <;> simp [hl]
  obtain ⟨evs, hevs⟩ := hret
  refine ⟨_, by simp only [set_rtctime, I2C_MUTEX_LOCK, hevs, if_true]; rfl, ?_⟩
  have hv : (get_rtctime true
      (I2C_MUTEX_UNLOCK (Rtc.SetDateTime (RtcDateTime.ofTime t)
        { (St.emit s (Ev.lock true)) with
          trace := (St.emit s (Ev.lock true)).trace ++ evs }))).1 = t := by
    rw [get_rtctime_granted]
    simp [I2C_MUTEX_UNLOCK, Rtc.SetDateTime, St.emit, RtcDateTime.ofTime,
      RtcDateTime.Epoch32Time, Nat.mod_eq_of_lt hm]
  refine ⟨hv, ?_⟩
  rw [hv]
  simp

/-- C2, an instance: internal-timer build, the third sample of the counter is
the multiple 5000, the time written is 1700000000. -/
theorem set_then_get_roundtrip_witness :
    (1700000000 : Nat) < 2 ^ 32 ∧
    ∃ s1, set_rtctime ⟨none, none, none, none⟩ true false (fun i => 4998 + i) 5
        1700000000 ⟨chip0, []⟩ = some (1, s1) ∧
      (get_rtctime true s1).1 = 1700000000 ∧
      Int.natAbs (((get_rtctime true s1).1 : Int) - ((1700000000 : Nat) : Int)) ≤ 1 :=
  ⟨by decide,
    set_then_get_roundtrip ⟨none, none, none, none⟩ false (fun i => 4998 + i) 5
      1700000000 ⟨chip0, []⟩ (by decide) (Or.inr ⟨2, by decide, by decide⟩)⟩

/-! ## Lease discipline on the bus mutex -/

theorem leaseRun_append (held : Bool) (xs ys : List Ev) :
    leaseRun held (xs ++ ys) =
      (match leaseRun held xs with
        | none => none
        | some h => leaseRun h ys) := by
  induction xs generalizing held with
  | nil => rfl
  | cons x xs ih =>
    simp only [List.cons_append, leaseRun]
    cases leaseStep held x with
    | none => rfl
    | some h => exact ih h

theorem leaseRun_sync (held : Bool) (xs : List Ev) (h : ∀ e ∈ xs, e.isSync = true) :
    leaseRun held xs = some held := by
  induction xs with
  | nil => rfl
  | cons x xs ih =>
    have hx : x.isSync = true := h x (List.mem_cons_self _ _)
    have hs : leaseStep held x = some held := by
      cases x <;> simp_all [Ev.isSync, leaseStep]
    simp only [leaseRun, hs]
    exact ih (fun e he => h e (List.mem_cons_of_mem _ he))

/-- Every event of a returned `sync_clock` is a semaphore wait or a sample of
the millisecond counter. -/
theorem sync_clock_events (b : Build) (semOk : Bool) (millis : Nat → Nat) (fuel : Nat)
    (tr : List Ev) (h : sync_clock b semOk millis fuel = some tr) :
    ∀ e ∈ tr, e.isSync = true := by
  unfold sync_clock at h
  cases hx : sync_clock_external b <;> cases semOk <;>
    simp only [hx, if_true, if_false, Bool.false_eq_true, Option.map_eq_some',
      Option.some.injEq] at h
  · obtain ⟨l, _, rfl⟩ := h
    intro e he
    obtain ⟨v, _, rfl⟩ := List.mem_map.1 he
    rfl
  · obtain ⟨l, _, rfl⟩ := h
    intro e he
    obtain ⟨v, _, rfl⟩ := List.mem_map.1 he
    rfl
  · obtain ⟨l, _, rfl⟩ := h
    intro e he
    rcases List.mem_cons.1 he with rfl | he
    · rfl
    · obtain ⟨v, _, rfl⟩ := List.mem_map.1 he
      rfl
  · subst h
    intro e he
    rw [List.mem_singleton] at he
    subst he
    rfl

/-- The paths that keep the discipline: `rtc_init` with the lock granted, and
`set_rtctime`, `get_rtctime`, `get_rtctemp` and `timepulse_init` whether the
lock is granted or refused. -/
theorem lease_discipline_kept (b : Build) (compiled : RtcDateTime) (granted semOk : Bool)
    (millis : Nat → Nat) (fuel t p : Nat) (c : Chip) :
    wellFormed (rtc_init compiled true ⟨c, []⟩).2.trace = true ∧
    (∀ r, set_rtctime b granted semOk millis fuel t ⟨c, []⟩ = some r →
      wellFormed r.2.trace = true) ∧
    wellFormed (get_rtctime granted ⟨c, []⟩).2.trace = true ∧
    wellFormed (get_rtctemp granted ⟨c, []⟩).2.trace = true ∧
    wellFormed (timepulse_init b granted p ⟨c, []⟩).2.trace = true := by
  refine ⟨?_, ?_, ?_, ?_, ?_⟩
  · obtain ⟨v, r, tm, p32, sp, sc, tc⟩ := c
    cases v <;> cases r <;> cases hl : tm.lt compiled <;>
      simp [rtc_init, I2C_MUTEX_LOCK, I2C_MUTEX_UNLOCK, Rtc.Begin, Rtc.IsDateTimeValid,
        Rtc.SetDateTime, Rtc.GetIsRunning, Rtc.SetIsRunning, Rtc.GetDateTime,
        Rtc.Enable32kHzPin, Rtc.SetSquareWavePin, St.emit, hl, RtcDateTime.lt_self,
        wellFormed, leaseRun, leaseStep]
  · intro r hr
    cases granted
    · simp [set_rtctime, I2C_MUTEX_LOCK, St.emit] at hr
      subst hr
      simp [wellFormed, leaseRun, leaseStep]
    · cases hs : sync_clock b semOk millis fuel with
      | none => simp [set_rtctime, I2C_MUTEX_LOCK, hs] at hr
      | some evs =>
        simp [set_rtctime, I2C_MUTEX_LOCK, I2C_MUTEX_UNLOCK, Rtc.SetDateTime, St.emit, hs] at hr
        subst hr
        have hev := leaseRun_sync true evs (sync_clock_events b semOk millis fuel evs hs)
        simp [wellFormed, leaseRun, leaseStep, leaseRun_append, hev]
  · cases granted <;> cases hv : c.valid <;>
      simp [get_rtctime, I2C_MUTEX_LOCK, I2C_MUTEX_UNLOCK, Rtc.IsDateTimeValid,
        Rtc.GetDateTime, St.emit, hv, wellFormed, leaseRun, leaseStep]
  · cases granted <;>
      simp [get_rtctemp, I2C_MUTEX_LOCK, I2C_MUTEX_UNLOCK, Rtc.GetTemperature, St.emit,
        wellFormed, leaseRun, leaseStep]
  · obtain ⟨gi, gc, ri, rc⟩ := b
    cases gi <;> cases gc <;> cases ri <;> cases rc <;> cases granted <;>
      simp only [timepulse_init, I2C_MUTEX_LOCK, I2C_MUTEX_UNLOCK,
        Rtc.SetSquareWavePinClockFrequency, Rtc.SetSquareWavePin, St.emit] <;>
      (try split_ifs) <;>
      simp_all [wellFormed, leaseRun, leaseStep]

/-- C8, the code at the failing input: `rtc_init` with the lock refused
returns 0 through its `error` label, which calls `I2C_MUTEX_UNLOCK()`: the
trace is a refused lock followed by an unlock of a mutex that is not held, and
the lease automaton rejects it. -/
theorem rtc_init_unlocks_without_lease (compiled : RtcDateTime) (c : Chip) :
    rtc_init compiled false ⟨c, []⟩ = (0, ⟨c, [Ev.lock false, Ev.unlock]⟩) ∧
    wellFormed (rtc_init compiled false ⟨c, []⟩).2.trace = false ∧
    leaseRun false (rtc_init compiled false ⟨c, []⟩).2.trace = none := by
  simp [rtc_init, I2C_MUTEX_LOCK, I2C_MUTEX_UNLOCK, St.emit, wellFormed, leaseRun, leaseStep]

end Paxcounter
